import Mathlib

/-!
Shallow embedding of the batch-synthesis and whitening core of the
bbhnet monorepo:

* `src/libs/data/bbhnet/data/dataloader.py` (`RandomWaveformDataset`)
* `src/libs/data/bbhnet/data/transforms/whitening.py` (`WhiteningTransform`)

Sample values are modelled as rationals, tensors as (nested) lists, and
Python exceptions as an explicit error type threaded through `Except`.
Randomness (`np.random`) is modelled by an explicit seed stream `ℕ → ℕ`:
every theorem about a random draw is universally quantified over the
stream.  External library routines whose numerics are irrelevant to the
claims (gwpy ASD estimation, FIR design, square roots) are passed in as
function arguments so that the development is parametric in them.
-/

/-- Python-level exceptions raised by the code paths modelled here.  The
attribute read that fails is recorded, so that the distinct
`AttributeError`s of the source can be told apart. -/
inductive PyAttr
  | waveform_frac        -- `self.waveform_frac`, read at dataloader.py line 109 but never assigned
  | glitches             -- `self.glitches`, read at line 192 but only assigned when no glitch data is given
  | torchFunctionalConv1d -- `torch.functional.conv1d` (line 174): conv1d lives in `torch.nn.functional`
  | batchIdx             -- `self._batch_idx`, read at line 180 before `__iter__` has created it
deriving DecidableEq

/-- Python exception kinds observable from the modelled code. -/
inductive PyError
  | assertionError                 -- failed `assert`
  | typeError                      -- unsupported operand or argument type
  | valueError                     -- numpy domain errors (`choice` / `randint`)
  | runtimeError                   -- torch shape / broadcast errors
  | attributeError (a : PyAttr)    -- missing attribute
  | notImplementedError            -- `raise NotImplementedError`
  | stopIteration                  -- `raise StopIteration`
deriving DecidableEq

/-- Boolean success test on `Except`. -/
def isOkE {α : Type} (e : Except PyError α) : Bool :=
  match e with
  | .ok _ => true
  | .error _ => false

/-- Python `int()` applied to a nonnegative rational: truncation toward
zero (all call sites here receive nonnegative arguments, where truncation
agrees with the floor). -/
def pyInt (q : ℚ) : ℕ := (q.num / (q.den : ℤ)).toNat

/-- Python `assert c`: raises `AssertionError` when `c` fails. -/
def pyAssert (c : Prop) [Decidable c] : Except PyError Unit :=
  if c then .ok () else .error .assertionError

/-- Mean of a list of rationals (`Tensor.mean` along an axis of this length). -/
def qListMean (l : List ℚ) : ℚ := l.sum / l.length

/-! ### Model of `np.random`

`np.random.choice(m, size=n, replace=False)` draws `n` distinct values
from `[0, m)`.  We model the generator as a seed stream `g : ℕ → ℕ` and
the draw as the first `n` entries of a Fisher–Yates shuffle of
`List.range m` driven by `g`; this realises exactly the contract of the
numpy call (distinct values in range, any order reachable) while staying
executable. -/

/-- One pass of a Fisher–Yates shuffle driven by seed stream `g`,
structurally recursive on a fuel argument so that it reduces inside the
kernel.  `k` indexes the position in the seed stream. -/
def fyShuffleFuel (g : ℕ → ℕ) : ℕ → ℕ → List ℕ → List ℕ
  | 0, _, _ => []
  | fuel + 1, k, l =>
    if l.length = 0 then []
    else
      let i := g k % l.length
      l.getD i 0 :: fyShuffleFuel g fuel (k + 1) (l.eraseIdx i)

/-- Shuffle of `l` driven by seed stream `g` starting at stream position `k`. -/
def fyShuffle (g : ℕ → ℕ) (k : ℕ) (l : List ℕ) : List ℕ :=
  fyShuffleFuel g l.length k l

/-- The list drawn by `np.random.choice(m, size=n, replace=False)` under
seed stream `g` (meaningful when `n ≤ m`). -/
def npChoiceList (m n : ℕ) (g : ℕ → ℕ) : List ℕ :=
  (fyShuffle g 0 (List.range m)).take n

/-- `np.random.choice(m, size=n, replace=False)`: raises `ValueError`
when more samples are requested than the population holds. -/
def npChoiceNoReplace (m n : ℕ) (g : ℕ → ℕ) : Except PyError (List ℕ) :=
  if n ≤ m then .ok (npChoiceList m n g) else .error .valueError

/-- `np.random.randint(m)`: uniform integer in `[0, m)`; raises
`ValueError` when the range is empty (`low >= high`). -/
def npRandint (m : ℕ) (r : ℕ) : Except PyError ℕ :=
  if m = 0 then .error .valueError else .ok (r % m)

/-! Permutation facts about the shuffle, giving the `replace=False`
guarantees of `np.random.choice`. -/

theorem length_eraseIdx_of_lt : ∀ (l : List ℕ) (i : ℕ), i < l.length →
    (l.eraseIdx i).length = l.length - 1 := by
  intro l
  induction l with
  | nil => intro i h; simp at h
  | cons a t ih =>
    intro i h
    cases i with
    | zero => simp [List.eraseIdx]
    | succ j =>
      simp only [List.eraseIdx, List.length_cons]
      rw [ih j (by simpa using Nat.lt_of_succ_lt_succ h)]
      have : 0 < t.length := Nat.lt_of_le_of_lt (Nat.zero_le j) (by simpa using Nat.lt_of_succ_lt_succ h)
      omega

theorem getD_cons_eraseIdx_perm : ∀ (l : List ℕ) (i : ℕ), i < l.length →
    (l.getD i 0 :: l.eraseIdx i).Perm l := by
  intro l
  induction l with
  | nil => intro i h; simp at h
  | cons a t ih =>
    intro i h
    cases i with
    | zero => simp [List.eraseIdx]
    | succ j =>
      have hj : j < t.length := by simpa using Nat.lt_of_succ_lt_succ h
      have hrec := ih j hj
      simp only [List.eraseIdx, List.getD_cons_succ]
      exact (List.Perm.swap a (t.getD j 0) (t.eraseIdx j)).trans (hrec.cons a)

theorem fyShuffleFuel_perm (g : ℕ → ℕ) :
    ∀ (fuel k : ℕ) (l : List ℕ), l.length ≤ fuel →
      (fyShuffleFuel g fuel k l).Perm l := by
  intro fuel
  induction fuel with
  | zero =>
    intro k l hl
    have : l = [] := List.eq_nil_of_length_eq_zero (Nat.le_zero.mp hl)
    simp [this, fyShuffleFuel]
  | succ n ih =>
    intro k l hl
    by_cases h0 : l.length = 0
    · have : l = [] := List.eq_nil_of_length_eq_zero h0
      simp [this, fyShuffleFuel]
    · have hpos : 0 < l.length := Nat.pos_of_ne_zero h0
      have hi : g k % l.length < l.length := Nat.mod_lt _ hpos
      have hlen : (l.eraseIdx (g k % l.length)).length = l.length - 1 :=
        length_eraseIdx_of_lt l _ hi
      have hle : (l.eraseIdx (g k % l.length)).length ≤ n := by omega
      have hrec := ih (k + 1) (l.eraseIdx (g k % l.length)) hle
      have hcons := hrec.cons (l.getD (g k % l.length) 0)
      have hperm := getD_cons_eraseIdx_perm l (g k % l.length) hi
      simp only [fyShuffleFuel, if_neg h0]
      exact hcons.trans hperm

theorem fyShuffle_perm (g : ℕ → ℕ) (k : ℕ) (l : List ℕ) :
    (fyShuffle g k l).Perm l :=
  fyShuffleFuel_perm g l.length k l (Nat.le_refl _)

theorem npChoiceList_nodup (m n : ℕ) (g : ℕ → ℕ) : (npChoiceList m n g).Nodup := by
  have hperm := fyShuffle_perm g 0 (List.range m)
  have hnd : (fyShuffle g 0 (List.range m)).Nodup :=
    (hperm.nodup_iff).mpr (List.nodup_range m)
  exact hnd.sublist (List.take_sublist n _)

theorem npChoiceList_mem (m n : ℕ) (g : ℕ → ℕ) :
    ∀ x ∈ npChoiceList m n g, x < m := by
  intro x hx
  have hperm := fyShuffle_perm g 0 (List.range m)
  have hx2 : x ∈ fyShuffle g 0 (List.range m) :=
    (List.take_sublist n _).subset hx
  have : x ∈ List.range m := hperm.mem_iff.mp hx2
  exact List.mem_range.mp this

theorem npChoiceList_length (m n : ℕ) (g : ℕ → ℕ) (h : n ≤ m) :
    (npChoiceList m n g).length = n := by
  have hperm := fyShuffle_perm g 0 (List.range m)
  have hlen : (fyShuffle g 0 (List.range m)).length = m := by
    simpa using hperm.length_eq
  simp [npChoiceList, hlen, h]

theorem npChoiceNoReplace_ok (m n : ℕ) (g : ℕ → ℕ) (h : n ≤ m) :
    npChoiceNoReplace m n g = .ok (npChoiceList m n g) := by
  simp [npChoiceNoReplace, h]

/-! ### `RandomWaveformDataset` (src/libs/data/bbhnet/data/dataloader.py)

The instance attributes that the methods of `RandomWaveformDataset` read
are collected into a state structure.  Two Python peculiarities of the
source are represented explicitly:

* `self.glitches` is assigned (to `None`) only in the `else` branch of
  the glitch-loading block (line 105); when a glitch dataset IS given the
  attribute is never created.  The Boolean `glitchesAttrSet` records
  whether the attribute exists (when it exists its value is always
  `None`).
* `self._batch_idx` is created by `__iter__`; `batch_idx = none` models
  the attribute not existing yet.
-/

structure DatasetState where
  hanford_background : List ℚ
  livingston_background : List ℚ
  /-- `np.stack([hanford_filter, livingston_filter])[:, None]` (line 71). -/
  whitening_filter : List (List (List ℚ))
  /-- `self.waveforms` (line 90 / line 93). -/
  waveforms : Option (List (List (List ℚ)))
  /-- `self.hanford_glitches` (line 101). -/
  hanford_glitches : Option (List (List ℚ))
  /-- `self.livingston_glitches` (line 102). -/
  livingston_glitches : Option (List (List ℚ))
  /-- whether the attribute `self.glitches` exists (see the note above). -/
  glitchesAttrSet : Bool
  num_waveforms : ℕ
  num_glitches : ℕ
  kernel_size : ℕ
  batch_size : ℕ
  batches_per_epoch : ℕ
  /-- `self._batch_idx`; `none` while `__iter__` has not run. -/
  batch_idx : Option ℕ
deriving DecidableEq

/-- `__iter__` (lines 116-118): reset the batch index to 0. -/
def datasetIter (s : DatasetState) : DatasetState := { s with batch_idx := some 0 }

/-- `scipy.signal.welch` returns a PAIR `(frequencies, Pxx)`.  Its
numerics are irrelevant here, so the routine is passed in as an argument
of this type: sample rate and `nperseg` and the time series map to the
two returned arrays. -/
def WelchFn : Type := ℚ → ℕ → List ℚ → List ℚ × List ℚ

/-- Exponentiating a Python tuple (`signal.welch(...) ** 0.5`, lines
14-23) raises `TypeError`: tuples do not support `**`. -/
def tuplePowHalf (p : List ℚ × List ℚ) : Except PyError (List ℚ) :=
  match p with
  | (_, _) => .error .typeError

/-- `DEFAULT_FFTLENGTH = 2` (line 9). -/
def DEFAULT_FFTLENGTH : ℚ := 2

/-- `_build_filter` (lines 12-24): `nfft = int(DEFAULT_FFTLENGTH *
sample_rate)`; `asd = (signal.welch(timeseries, ...)) ** 0.5` — note the
missing unpacking: `welch` returns a `(freqs, Pxx)` tuple and the `**`
is applied to the tuple itself, so the call raises `TypeError` before
`fir_from_transfer` is ever reached. -/
def build_filter (welchF : WelchFn) (timeseries : List ℚ) (sample_rate : ℚ) :
    Except PyError (List ℚ) := do
  let nfft := pyInt (DEFAULT_FFTLENGTH * sample_rate)
  let asd ← tuplePowHalf (welchF sample_rate nfft timeseries)
  -- unreachable: fir_from_transfer(1 / asd, ntaps=nfft, window="hanning", ncorner=0)
  .ok asd

/-- `RandomWaveformDataset.__init__` (lines 28-114).  File reads are
modelled by passing the file contents directly: `hanford_data` /
`livingston_data` are the `hoft` arrays, `waveform_dataset` the
`waveforms` array (present iff a waveform file path was supplied), and
`glitch_dataset` the pair of per-detector glitch arrays.  The body
follows the source line by line:

1. the three fraction `assert`s (lines 43-50), before any data is used;
2. `_build_filter` on each background (lines 54-69) — which raises
   `TypeError` (see `build_filter`);
3. the background-length `assert` (line 78);
4. the waveform / glitch branch `assert`s (lines 83-105);
5. line 109 reads `self.waveform_frac`, which was never assigned, so a
   completing construction would still end in `AttributeError`. -/
def datasetInit (welchF : WelchFn)
    (hanford_data livingston_data : List ℚ)
    (kernel_length sample_rate : ℚ) (batch_size batches_per_epoch : ℕ)
    (waveform_dataset : Option (List (List (List ℚ)))) (waveform_frac : ℚ)
    (glitch_dataset : Option (List (List ℚ) × List (List ℚ))) (glitch_frac : ℚ) :
    Except PyError DatasetState := do
  let _ ← pyAssert (0 ≤ waveform_frac ∧ waveform_frac ≤ 1)
  let _ ← pyAssert (0 ≤ glitch_frac ∧ glitch_frac ≤ 1)
  let _ ← pyAssert (waveform_frac + glitch_frac ≤ 1)
  let _hanford_filter ← build_filter welchF hanford_data sample_rate
  let _livingston_filter ← build_filter welchF livingston_data sample_rate
  let _ ← pyAssert (hanford_data.length = livingston_data.length)
  let _waveforms ← (match waveform_dataset with
    | some wfs => do
        let _ ← pyAssert (waveform_frac > 0)
        .ok (some wfs)
    | none => do
        let _ ← pyAssert (waveform_frac = 0)
        .ok (none : Option (List (List (List ℚ)))))
  let _glitchState ← (match glitch_dataset with
    | some gl => do
        let _ ← pyAssert (glitch_frac > 0)
        -- `self.hanford_glitches` / `self.livingston_glitches` are set;
        -- `self.glitches` is NOT
        .ok (some gl.1, some gl.2, false)
    | none => do
        let _ ← pyAssert (glitch_frac = 0)
        -- `self.glitches = None` (line 105)
        .ok ((none : Option (List (List ℚ))), (none : Option (List (List ℚ))), true))
  -- line 109: `self.num_waveforms = int(self.waveform_frac * batch_size)`:
  -- `self.waveform_frac` was never assigned, so this read raises.
  .error (.attributeError .waveform_frac)

/-- `sample_from_array`, 2-D case (lines 120-138, `len(array.shape) ==
2`: the glitch pools).  `shapeLast` is `array.shape[-1]`: the common row
length of the numpy array, read off its first row.  `gIdx` seeds the
index draw, `gStart` the per-sample crop draws (one independent draw per
sampled index, line 130). -/
def shapeLast2 (array : List (List ℚ)) : ℕ := (array.headD []).length

/-- The crop loop of `sample_from_array` (lines 128-135) for a 2-D
array: for the `k`-th sampled index `i`, `start =
np.random.randint(shape[-1] - kernel_size)` and the sample is
`array[i, start:start+kernel_size]`. -/
def sampleRows2 (kernel_size : ℕ) (array : List (List ℚ)) (lastDim : ℕ)
    (gStart : ℕ → ℕ) : ℕ → List ℕ → Except PyError (List (List ℚ))
  | _, [] => .ok []
  | k, i :: rest => do
    let start ← npRandint (lastDim - kernel_size) (gStart k)
    let tail ← sampleRows2 kernel_size array lastDim gStart (k + 1) rest
    .ok (((array.getD i []).drop start).take kernel_size :: tail)

/-- `sample_from_array` on a 2-D array. -/
def sample_from_array2 (kernel_size : ℕ) (array : List (List ℚ)) (N : ℕ)
    (gIdx gStart : ℕ → ℕ) : Except PyError (List (List ℚ)) := do
  let idx ← npChoiceNoReplace array.length N gIdx
  sampleRows2 kernel_size array (shapeLast2 array) gStart 0 idx

/-- `array.shape[-1]` for the 3-D waveform pool. -/
def shapeLast3 (array : List (List (List ℚ))) : ℕ :=
  ((array.headD []).headD []).length

/-- The crop loop of `sample_from_array` (lines 128-135) for a 3-D
array: the sample is `array[i, :, start:start+kernel_size]`. -/
def sampleRows3 (kernel_size : ℕ) (array : List (List (List ℚ))) (lastDim : ℕ)
    (gStart : ℕ → ℕ) : ℕ → List ℕ → Except PyError (List (List (List ℚ)))
  | _, [] => .ok []
  | k, i :: rest => do
    let start ← npRandint (lastDim - kernel_size) (gStart k)
    let tail ← sampleRows3 kernel_size array lastDim gStart (k + 1) rest
    .ok ((array.getD i []).map (fun ch => (ch.drop start).take kernel_size) :: tail)

/-- `sample_from_array` on a 3-D array. -/
def sample_from_array3 (kernel_size : ℕ) (array : List (List (List ℚ))) (N : ℕ)
    (gIdx gStart : ℕ → ℕ) : Except PyError (List (List (List ℚ))) := do
  let idx ← npChoiceNoReplace array.length N gIdx
  sampleRows3 kernel_size array (shapeLast3 array) gStart 0 idx

/-- The two offset draws of `sample_from_background` (lines 141-153):
`hanford_start = np.random.choice(len(hanford) - kernel_size,
size=batch_size, replace=False)`; when `independent` the Livingston
offsets are drawn the same way from their own stream, otherwise
`livingston_start = hanford_start`. -/
def backgroundStarts (s : DatasetState) (independent : Bool) (gH gL : ℕ → ℕ) :
    Except PyError (List ℕ × List ℕ) := do
  let hanford_start ← npChoiceNoReplace
    (s.hanford_background.length - s.kernel_size) s.batch_size gH
  let livingston_start ←
    if independent then
      npChoiceNoReplace (s.livingston_background.length - s.kernel_size) s.batch_size gL
    else
      .ok hanford_start
  .ok (hanford_start, livingston_start)

/-- An element handed to `torch.cat` at line 166.  The source appends
`[hanford, livingston]` — a Python LIST of two tensors, not a tensor —
for each window pair (line 162). -/
inductive CatElem
  | tensor (xs : List ℚ)
  | pylist (xs : List (List ℚ))
deriving DecidableEq

/-- `torch.cat(X, axis=0)`: concatenation of 1-D tensors.  Passing an
empty sequence raises `RuntimeError`; passing a sequence whose elements
are not tensors (here: Python lists) raises `TypeError` ("expected
Tensor as element 0"). -/
def torchCatGo : List CatElem → Except PyError (List ℚ)
  | [] => .ok []
  | .tensor x :: rest => do
    let tail ← torchCatGo rest
    .ok (x ++ tail)
  | .pylist _ :: _ => .error .typeError

def torchCat (elems : List CatElem) : Except PyError (List ℚ) :=
  match elems with
  | [] => .error .runtimeError
  | _ :: _ => torchCatGo elems

/-- `sample_from_background` (lines 140-166): draw the start offsets,
slice a kernel-sized window per detector at each offset, collect the
`[hanford, livingston]` list pairs, and hand them to `torch.cat`. -/
def sample_from_background (s : DatasetState) (independent : Bool) (gH gL : ℕ → ℕ) :
    Except PyError (List ℚ) := do
  let starts ← backgroundStarts s independent gH gL
  let X := (starts.1.zip starts.2).map (fun p =>
    CatElem.pylist
      [(s.hanford_background.drop p.1).take s.kernel_size,
       (s.livingston_background.drop p.2).take s.kernel_size])
  torchCat X

/-- `inject_waveforms` (lines 168-170): `raise NotImplementedError`. -/
def inject_waveforms (_background : List ℚ) (_waveforms : List (List (List ℚ))) :
    Except PyError Unit :=
  .error .notImplementedError

/-- Python slice `l[-n:]`.  Note the `n = 0` case: `-0 == 0`, so
`l[-0:]` is the WHOLE list, not the empty suffix. -/
def pySliceFromNeg {α : Type} (n : ℕ) (l : List α) : List α :=
  if n = 0 then l else l.drop (l.length - n)

/-- Python slice assignment `l[-n:] = v` (broadcast of a scalar), with
the same `-0` quirk: `n = 0` overwrites every element. -/
def pySetFromNeg {α : Type} (n : ℕ) (v : α) (l : List α) : List α :=
  if n = 0 then l.map (fun _ => v)
  else (l.take (l.length - n)) ++ List.replicate (min n l.length) v

/-- The glitch-replacement step of `__next__` (lines 190-214).  The
guard at line 192 is `if self.glitches is not None:`.  `__init__` only
ever assigns `self.glitches = None` (and only when NO glitch dataset was
given, line 105); when glitch data was loaded the attribute does not
exist and the read raises `AttributeError`.  Consequently the branch
body (lines 193-214: the `np.random.randint(self.num_glitches)` split —
whose range is `[0, num_glitches)`, excluding the upper endpoint — and
the per-channel overwrites) is unreachable and is not modelled. -/
def glitchStep (s : DatasetState) (X : List ℚ) : Except PyError (List ℚ) :=
  if s.glitchesAttrSet then
    -- the attribute exists and its value is `None`: the branch is skipped
    .ok X
  else
    .error (.attributeError .glitches)

/-- The waveform-injection step of `__next__` (lines 216-223), guarded
by `if self.waveforms is not None:`.  The step samples
`num_waveforms` waveforms, calls `inject_waveforms` on the slice
`X[-num_waveforms:]` (which raises `NotImplementedError`), and — were
injection implemented — would then set `y[-num_waveforms:] = 1`. -/
def waveformStep (s : DatasetState) (X : List ℚ) (y : List ℚ) (gIdx gStart : ℕ → ℕ) :
    Except PyError (List ℚ × List ℚ) :=
  match s.waveforms with
  | none => .ok (X, y)
  | some pool => do
    let wfs ← sample_from_array3 s.kernel_size pool s.num_waveforms gIdx gStart
    let _ ← inject_waveforms (pySliceFromNeg s.num_waveforms X) wfs
    .ok (X, pySetFromNeg s.num_waveforms (1 : ℚ) y)

/-- `whiten` (lines 172-177).  For the 1-D tensor that `torch.cat`
would produce, `X - X.mean(axis=-1)` subtracts the scalar mean; the
next line then calls `torch.functional.conv1d`, an attribute that does
not exist (`conv1d` lives in `torch.nn.functional`), so the call raises
`AttributeError` before the filter or the scale are touched. -/
def dataloaderWhiten (_s : DatasetState) (X : List ℚ) : Except PyError (List ℚ) :=
  let m := qListMean X
  let _Xd := X.map (fun x => x - m)
  .error (.attributeError .torchFunctionalConv1d)

/-- `__next__` (lines 179-226): raise `StopIteration` once
`self._batch_idx >= self.batches_per_epoch` (note: nothing in the body
ever increments `_batch_idx`); otherwise sample a background batch, make
the zero label vector, run the glitch and waveform steps, and whiten.
Each random primitive gets its own seed stream. -/
def datasetNext (s : DatasetState) (gH gL gWIdx gWStart : ℕ → ℕ) :
    Except PyError (List ℚ × List ℚ) := do
  match s.batch_idx with
  | none => .error (.attributeError .batchIdx)
  | some idx =>
    if s.batches_per_epoch ≤ idx then .error .stopIteration
    else do
      let X ← sample_from_background s true gH gL
      let y := List.replicate s.batch_size (0 : ℚ)
      let X ← glitchStep s X
      let Xy ← waveformStep s X y gWIdx gWStart
      let Xw ← dataloaderWhiten s Xy.1
      .ok (Xw, Xy.2)

/-! ### `WhiteningTransform` (src/libs/data/bbhnet/data/transforms/whitening.py)

The base class `Transform` (`add_parameter`, `set_value`) is not part of
the sources; following the spec its parameters are plain tensors stored
on the instance and `set_value` overwrites a parameter with a given
array ("Re-fitting overwrites the filter in place").

The `time_domain_filter` parameter is only ever a 1-D array (the
`np.zeros(num_ifos, int(fftlength * sample_rate))` of line 27, whose
SECOND positional argument is the numpy `dtype`, so only `num_ifos` is a
dimension) or the 2-D `np.stack(tdfs)` produced by `fit` (line 67); the
type `NpArr` records exactly these two ranks. -/

inductive NpArr
  | one (xs : List ℚ)
  | two (xss : List (List ℚ))
deriving DecidableEq

/-- `arr.shape[0]`. -/
def npShape0 (a : NpArr) : ℕ :=
  match a with
  | .one xs => xs.length
  | .two xss => xss.length

/-- Decides whether `a` is a 2-D array of shape `(r, c)`. -/
def npHasShape2 (a : NpArr) (r c : ℕ) : Bool :=
  match a with
  | .one _ => false
  | .two xss => xss.length == r && xss.all (fun row => row.length == c)

/-- The instance state of `WhiteningTransform` (lines 12-29):
`num_ifos`, `sample_rate`, `kernel_length`, `fftlength`, the
`time_domain_filter` parameter and the `window` tensor.  The window is
built by `torch.hann_window(int(fftlength * sample_rate))` (line 29), so
in every state reachable from `__init__` it has length
`int(fftlength * sample_rate)`; theorems state that fact as a
hypothesis rather than fixing the (irrational) Hann values. -/
structure WhitenState where
  num_ifos : ℕ
  sample_rate : ℚ
  kernel_length : ℚ
  fftlength : ℚ
  time_domain_filter : NpArr
  window : List ℚ
deriving DecidableEq

/-- The gwpy ASD estimate used by `fit` (lines 56-61):
`TimeSeries(value, dt=1/sample_rate).asd(fftlength, window="hanning",
method="median").interpolate(1/kernel_length).value`.  Its numerics are
external (gwpy), so the routine is an argument: sample rate, fftlength
and kernel length plus the background array map to the ASD array. -/
def AsdFn : Type := ℚ → ℚ → ℚ → List ℚ → List ℚ

/-- The gwpy FIR design routine `fir_from_transfer(transfer, ntaps,
window="hanning", ncorner=0)` (lines 62-64): an external routine
producing an `ntaps`-long time-domain filter from a transfer function.
Theorems assume only its documented output length. -/
def FirFn : Type := List ℚ → ℕ → List ℚ

/-- `WhiteningTransform.fit` (lines 40-68): reject the call when the
number of backgrounds differs from `time_domain_filter.shape[0]`;
otherwise build one `ntaps = int(fftlength * sample_rate)`-tap filter
per background from the pointwise inverse of its interpolated ASD, stack
them, and overwrite the `time_domain_filter` parameter.  No other
attribute is touched. -/
def whitenFit (asdF : AsdFn) (firF : FirFn) (s : WhitenState)
    (backgrounds : List (List ℚ)) : Except PyError WhitenState :=
  if backgrounds.length ≠ npShape0 s.time_domain_filter then
    .error .valueError
  else
    let ntaps := pyInt (s.fftlength * s.sample_rate)
    let tdfs := backgrounds.map (fun background =>
      let asd := asdF s.sample_rate s.fftlength s.kernel_length background
      firF (asd.map (fun a => 1 / a)) ntaps)
    .ok { s with time_domain_filter := .two tdfs }

/-- The constant detrend of `forward` (lines 76-78): the
transpose/mean/subtract/transpose sequence removes, from each
`(batch, channel)` row, its mean along the time axis. -/
def detrend3 (X : List (List (List ℚ))) : List (List (List ℚ)) :=
  X.map (fun row => row.map (fun ch =>
    let m := qListMean ch
    ch.map (fun x => x - m)))

/-- `X *= self.window` (line 79): an IN-PLACE broadcast multiply.  It
succeeds only when the trailing dimension of `X` matches the window
length (elementwise product) or the window has length 1 (scalar
broadcast); any other combination cannot be broadcast back onto `X` and
raises a torch `RuntimeError`. -/
def inplaceMulWindow (w : List ℚ) (X : List (List (List ℚ))) :
    Except PyError (List (List (List ℚ))) :=
  if w.length = 1 then
    .ok (X.map (fun row => row.map (fun ch => ch.map (fun x => x * w.headD 0))))
  else if X.all (fun row => row.all (fun ch => ch.length == w.length)) then
    .ok (X.map (fun row => row.map (fun ch => ch.zipWith (fun x v => x * v) w)))
  else
    .error .runtimeError

/-- `torch.nn.functional.conv1d(X, weight, groups, padding="same")`
(lines 86-88) requires a 3-D weight of shape `(out_channels,
in_channels / groups, kW)`.  The `time_domain_filter` handed to it here
is a 1-D or a 2-D array (`NpArr`), so the call is rejected with a
`RuntimeError` in either case. -/
def conv1dGrouped (weight : NpArr) (_groups : ℕ) (_X : List (List (List ℚ))) :
    Except PyError (List (List (List ℚ))) :=
  match weight with
  | .one _ => .error .runtimeError
  | .two _ => .error .runtimeError

/-- `WhiteningTransform.forward` (lines 70-92): detrend, in-place window
multiply, channel-grouped convolution with the stored filter, and the
final `* (2 / sample_rate) ** 0.5` scale.  The square root is external
real arithmetic and is passed in as `sqrtF`. -/
def whitenForward (sqrtF : ℚ → ℚ) (s : WhitenState) (X : List (List (List ℚ))) :
    Except PyError (List (List (List ℚ))) := do
  let Xd := detrend3 X
  let Xw ← inplaceMulWindow s.window Xd
  let Xc ← conv1dGrouped s.time_domain_filter s.num_ifos Xw
  .ok (Xc.map (fun row => row.map (fun ch => ch.map (fun x => x * sqrtF (2 / s.sample_rate)))))

/-! ### Concrete instances used to evaluate the code -/

/-- A constant seed stream (theorems about draws hold for every stream;
evaluations use this one). -/
def zeroSeed : ℕ → ℕ := fun _ => 0

/-- A concrete `scipy.signal.welch` stand-in; `_build_filter` raises on
the returned TUPLE before its contents matter. -/
def welchStub : WelchFn := fun _ _ _ => ([], [])

/-- A dataset state as `__iter__`/`__next__` expect it: 12 background
samples per detector, `kernel_size = 4`, `batch_size = 2`,
`batches_per_epoch = 1`, no waveform or glitch sources (so
`self.glitches` exists and is `None`). -/
def c1State : DatasetState where
  hanford_background := List.replicate 12 0
  livingston_background := List.replicate 12 0
  whitening_filter := []
  waveforms := none
  hanford_glitches := none
  livingston_glitches := none
  glitchesAttrSet := true
  num_waveforms := 0
  num_glitches := 0
  kernel_size := 4
  batch_size := 2
  batches_per_epoch := 1
  batch_idx := none

/-- Claim C1.  The claim: after the iterator reset, each `next()` call
returns one composed-and-whitened batch and increments `_batch_idx`, and
the call after `batches_per_epoch` batches raises `StopIteration`.  The
code: `__next__` contains no `_batch_idx` increment at all, so with
`batches_per_epoch = 1 > 0` the `StopIteration` guard can never fire
after a reset; and the call never returns a batch either — it dies with
`TypeError` inside `sample_from_background`, where line 166 hands
`torch.cat` a list of `[hanford, livingston]` Python-list pairs (the
TODO in the source at lines 164-165 flags this).  Evaluating the first
post-reset call on a concrete dataset state exhibits the failure; the
body being a pure function of the unchanged state, every later call is
the same call. -/
theorem C1_next_eval :
    datasetNext (datasetIter c1State) zeroSeed zeroSeed zeroSeed zeroSeed =
      .error .typeError := by
  rfl

/-- Claim C2, concrete scenario: background length 4096 at 1 Hz,
`kernel_length = 1`, `batch_size = 8`, `waveform_frac = 0.25`,
`glitch_frac = 0`, a waveform source supplied (required by the line 84
assert whenever `waveform_frac > 0`).  The claim says composing one
batch yields `y = [0,0,0,0,0,0,1,1]`.  The code never gets there:
construction itself raises `TypeError` inside `_build_filter`
(`signal.welch(...)**0.5` exponentiates the `(freqs, Pxx)` tuple), and
even past that, `self.waveform_frac` is never assigned (line 109) and
`inject_waveforms` raises `NotImplementedError` (line 170) before any
label is set. -/
theorem C2_scenario_init_fails :
    datasetInit welchStub (List.replicate 4096 0) (List.replicate 4096 0)
      1 1 8 10 (some [[[0], [0]]]) (1/4) none 0 = .error .typeError := by
  have h1 : (0 ≤ (1/4 : ℚ) ∧ (1/4 : ℚ) ≤ 1) := by norm_num
  have h2 : (0 ≤ (0 : ℚ) ∧ (0 : ℚ) ≤ 1) := by norm_num
  have h3 : ((1/4 : ℚ) + 0 ≤ 1) := by norm_num
  have h4 : ((4 : ℚ)⁻¹ ≤ 1) := by norm_num
  have h5 : (0 ≤ (4 : ℚ)⁻¹) := by norm_num
  simp [datasetInit, pyAssert, h1, h2, h3, h4, h5, build_filter, tuplePowHalf,
        welchStub, Bind.bind, Except.bind]

/-- A whitening transform state as `__init__` and `fit` leave it:
`num_ifos = 2`, `sample_rate = 2`, `kernel_length = 1` (so
`kernel_size = 2`), `fftlength = 2`; the window has length
`int(fftlength * sample_rate) = 4` (line 29) and the filter is the 2-D
`np.stack` a successful `fit` stores (line 67). -/
def c3State : WhitenState where
  num_ifos := 2
  sample_rate := 2
  kernel_length := 1
  fftlength := 2
  time_domain_filter := .two [[1, 0, 0, 0], [1, 0, 0, 0]]
  window := [0, 0, 0, 0]

/-- A kernel-sized input batch of shape `(1, 2, kernel_size) = (1, 2, 2)`
for `c3State`, as the test in the repository applies the transform
(`torch.randn(8, num_ifos, sample_rate)` with `kernel_length = 1`). -/
def c3Batch : List (List (List ℚ)) := [[[1, 2], [3, 4]]]

/-- Claim C3.  The claim (and the repository test
`test_whitening_transform`, which asserts `len(whitener.window) ==
sample_rate` for `kernel_length = 1` and whitens a kernel-sized batch):
`forward` detrends, multiplies by a Hann window of length
`kernel_size`, applies a channel-grouped same-padded convolution and
scales by `sqrt(2 / sample_rate)`, preserving the input shape.  The
code builds the window with length `int(fftlength * sample_rate)`
instead (4 here, against `kernel_size = 2`), so on the kernel-sized
batch the in-place `X *= self.window` raises `RuntimeError` — and its
filter tensor is 2-D, which the grouped conv1d would reject anyway. -/
theorem C3_forward_kernel_input_fails :
    pyInt (c3State.kernel_length * c3State.sample_rate) = 2 ∧
    c3State.window.length = pyInt (c3State.fftlength * c3State.sample_rate) ∧
    c3Batch.map (fun row => row.map List.length) = [[2, 2]] ∧
    whitenForward (fun q => q) c3State c3Batch = .error .runtimeError := by
  refine ⟨?_, ?_, rfl, rfl⟩
  · norm_num [pyInt, c3State]
    try decide
  · norm_num [pyInt, c3State]
    try decide

/-- A dataset state in which glitch data was loaded: `__init__` sets
`self.hanford_glitches` / `self.livingston_glitches` but never
`self.glitches` (that attribute is only assigned — to `None` — in the
no-glitch branch, line 105). -/
def c5State : DatasetState where
  hanford_background := List.replicate 12 0
  livingston_background := List.replicate 12 0
  whitening_filter := []
  waveforms := none
  hanford_glitches := some [[0, 0, 0, 0, 0, 0], [1, 1, 1, 1, 1, 1]]
  livingston_glitches := some [[2, 2, 2, 2, 2, 2], [3, 3, 3, 3, 3, 3]]
  glitchesAttrSet := false
  num_waveforms := 0
  num_glitches := 2
  kernel_size := 4
  batch_size := 4
  batches_per_epoch := 1
  batch_idx := some 0

/-- Claim C5.  The claim describes the glitch-replacement step: split
`num_glitches` by a uniform integer in `[0, num_glitches]`, overwrite
channel 0 of rows `[0, num_hanford)` and channel 1 of rows
`[num_hanford, num_glitches)`, leave everything else unchanged.  The
code never executes that step: with glitch data loaded, the guard
`if self.glitches is not None:` (line 192) reads an attribute that
`__init__` (line 105) only creates when NO glitch data is given, so the
step raises `AttributeError` instead.  (Were the branch reached, its
split `np.random.randint(self.num_glitches)` draws from
`[0, num_glitches)`, excluding the upper endpoint the claim includes.) -/
theorem C5_glitch_branch_attribute_error :
    0 < c5State.num_glitches ∧
    glitchStep c5State [1, 2, 3, 4] = .error (.attributeError .glitches) := by
  refine ⟨by decide, rfl⟩

/-- A dataset state with a waveform pool present but a computed
`num_waveforms` of zero (reachable from the asserts: `waveform_frac`
may be positive while `int(waveform_frac * batch_size) = 0`). -/
def c6State : DatasetState where
  hanford_background := List.replicate 12 0
  livingston_background := List.replicate 12 0
  whitening_filter := []
  waveforms := some [[[0, 0, 0, 0, 0, 0], [1, 1, 1, 1, 1, 1]],
                     [[2, 2, 2, 2, 2, 2], [3, 3, 3, 3, 3, 3]],
                     [[4, 4, 4, 4, 4, 4], [5, 5, 5, 5, 5, 5]]]
  hanford_glitches := none
  livingston_glitches := none
  glitchesAttrSet := true
  num_waveforms := 0
  num_glitches := 0
  kernel_size := 4
  batch_size := 2
  batches_per_epoch := 1
  batch_idx := some 0

/-- Claim C6, counterexample.  The claim: whenever `num_waveforms = 0`
the waveform-injection step is skipped entirely and writes nothing.  The
code guards the step by `if self.waveforms is not None:` — by source
presence, not by count — so with a pool loaded and `num_waveforms = 0`
the step still runs: it samples zero waveforms and calls the
unimplemented `inject_waveforms` on the slice `X[-0:]` (the WHOLE
batch, since `-0 == 0`), raising `NotImplementedError` instead of
skipping; had injection returned, `y[-0:] = 1` would have marked every
label positive. -/
theorem C6_cex_zero_count_not_skipped :
    c6State.num_waveforms = 0 ∧
    waveformStep c6State [1, 2] [0, 0] zeroSeed zeroSeed =
      .error .notImplementedError := by
  refine ⟨rfl, rfl⟩

/-- Claim C6, amended: the glitch and waveform steps are skipped — and
write nothing — exactly when the corresponding SOURCE is absent (which
forces the count to zero through the construction asserts); when a
source is present with a zero count the step is not skipped (see the
counterexample). -/
theorem C6_steps_guarded_by_source :
    (∀ (s : DatasetState) (X : List ℚ),
       s.glitchesAttrSet = true → glitchStep s X = .ok X) ∧
    (∀ (s : DatasetState) (X y : List ℚ) (g1 g2 : ℕ → ℕ),
       s.waveforms = none → waveformStep s X y g1 g2 = .ok (X, y)) := by
  constructor
  · intro s X h
    simp [glitchStep, h]
  · intro s X y g1 g2 h
    simp [waveformStep, h]

/-- Witness for `C6_steps_guarded_by_source` on the no-source state
`c1State`. -/
theorem C6_steps_guarded_by_source_witness :
    glitchStep c1State [5] = .ok [5] ∧
    waveformStep c1State [5] [0, 0] zeroSeed zeroSeed = .ok ([5], [0, 0]) :=
  ⟨C6_steps_guarded_by_source.1 c1State [5] rfl,
   C6_steps_guarded_by_source.2 c1State [5] [0, 0] zeroSeed zeroSeed rfl⟩

/-- Claim C7.  The claim: construction fails eagerly (before any data
file is read) on invalid fractions, fails on a source/fraction mismatch,
and for every valid configuration the checks pass and construction
proceeds.  What holds: (1)-(2) the fraction asserts fire first, for
EVERY choice of data (so before any data is used); but (3) a waveform
source with zero fraction dies earlier than its assert — with
`TypeError` inside `_build_filter` (`welch(...)**0.5` exponentiates the
returned tuple) — and (4) the same `TypeError` kills every VALID
configuration too, so construction never proceeds (and line 109 would
raise `AttributeError` on the never-assigned `self.waveform_frac` even
if it did). -/
theorem C7_init_checks :
    (∀ (welchF : WelchFn) (hd ld : List ℚ) (kl sr : ℚ) (bs bpe : ℕ)
       (wfds : Option (List (List (List ℚ)))) (gds : Option (List (List ℚ) × List (List ℚ)))
       (gf : ℚ),
       datasetInit welchF hd ld kl sr bs bpe wfds (3/2) gds gf =
         .error .assertionError) ∧
    (∀ (welchF : WelchFn) (hd ld : List ℚ) (kl sr : ℚ) (bs bpe : ℕ)
       (wfds : Option (List (List (List ℚ)))) (gds : Option (List (List ℚ) × List (List ℚ))),
       datasetInit welchF hd ld kl sr bs bpe wfds (2/3) gds (2/3) =
         .error .assertionError) ∧
    datasetInit welchStub [0, 0] [0, 0] 1 1 8 10 (some [[[0], [0]]]) 0 none 0 =
      .error .typeError ∧
    datasetInit welchStub [0, 0] [0, 0] 1 1 8 10 none 0 none 0 =
      .error .typeError := by
  have h0 : (0 ≤ (0 : ℚ) ∧ (0 : ℚ) ≤ 1) := by norm_num
  have hsum0 : ((0 : ℚ) + 0 ≤ 1) := by norm_num
  refine ⟨?_, ?_, ?_, ?_⟩
  · intro welchF hd ld kl sr bs bpe wfds gds gf
    have hfrac : ¬ (0 ≤ (3/2 : ℚ) ∧ (3/2 : ℚ) ≤ 1) := by norm_num
    simp [datasetInit, pyAssert, hfrac, Bind.bind, Except.bind]
  · intro welchF hd ld kl sr bs bpe wfds gds
    have h1 : (0 ≤ (2/3 : ℚ) ∧ (2/3 : ℚ) ≤ 1) := by norm_num
    have h2 : ¬ ((2/3 : ℚ) + (2/3 : ℚ) ≤ 1) := by norm_num
    simp [datasetInit, pyAssert, h1, h2, Bind.bind, Except.bind]
  · simp [datasetInit, pyAssert, h0, hsum0, build_filter, tuplePowHalf, welchStub,
          Bind.bind, Except.bind]
  · simp [datasetInit, pyAssert, h0, hsum0, build_filter, tuplePowHalf, welchStub,
          Bind.bind, Except.bind]

/-- A post-`fit` whitening state whose input batch matches the window
length: `int(fftlength * sample_rate) = 4` and a `(1, 2, 4)` batch. -/
def c10State : WhitenState where
  num_ifos := 2
  sample_rate := 2
  kernel_length := 2
  fftlength := 2
  time_domain_filter := .two [[1, 0, 0, 0], [1, 0, 0, 0]]
  window := [0, 0, 0, 0]

def c10Batch : List (List (List ℚ)) := [[[1, 2, 3, 4], [5, 6, 7, 8]]]

/-- Claim C10, counterexample.  The claim: the error branch of `forward` is
unreachable exactly when the time dimension of the input equals
`int(fftlength * sample_rate)`.  Here the time dimension of the input (4)
equals `int(fftlength * sample_rate)` and the multiply by the window
succeeds, yet `forward` still fails: the stored `time_domain_filter` is
a 2-D array while the channel-grouped `conv1d` requires a 3-D weight. -/
theorem C10_cex_matching_length_still_fails :
    c10State.window.length = pyInt (c10State.fftlength * c10State.sample_rate) ∧
    c10Batch.map (fun row => row.map List.length) = [[4, 4]] ∧
    whitenForward (fun q => q) c10State c10Batch = .error .runtimeError := by
  refine ⟨?_, rfl, rfl⟩
  · norm_num [pyInt, c10State]
    try decide

/-- Claim C10, amended: `forward` is defined for NO input.  When the
time dimension differs from the window length
`int(fftlength * sample_rate)` (and the window is not a scalar), the
in-place `X *= self.window` fails; when they match, the grouped
convolution still rejects the 1-D/2-D `time_domain_filter` (a 3-D
weight is required).  Hence every call errors. -/
theorem C10_forward_always_fails :
    ∀ (sqrtF : ℚ → ℚ) (s : WhitenState) (X : List (List (List ℚ))),
      isOkE (whitenForward sqrtF s X) = false := by
  intro sqrtF s X
  unfold whitenForward
  cases h : inplaceMulWindow s.window (detrend3 X) with
  | error e => simp [h, isOkE, Bind.bind, Except.bind]
  | ok Xw =>
    cases hw : s.time_domain_filter with
    | one xs => simp [h, hw, conv1dGrouped, isOkE, Bind.bind, Except.bind]
    | two xss => simp [h, hw, conv1dGrouped, isOkE, Bind.bind, Except.bind]

/-- A dataset state for evaluating `sample_from_background`: 12
background samples per detector, `kernel_size = 4` (so the offset
population is `[0, 8)`), `batch_size = 2`. -/
def c4State : DatasetState where
  hanford_background := List.replicate 12 0
  livingston_background := List.replicate 12 0
  whitening_filter := []
  waveforms := none
  hanford_glitches := none
  livingston_glitches := none
  glitchesAttrSet := true
  num_waveforms := 0
  num_glitches := 0
  kernel_size := 4
  batch_size := 2
  batches_per_epoch := 1
  batch_idx := some 0

/-- Claim C4.  What holds of the code (first two conjuncts): the
per-channel start offsets drawn by `sample_from_background` are pairwise
distinct, `batch_size` many, and lie in `[0, len - kernel_size)`
whenever `batch_size ≤ len - kernel_size`; and with `independent=False`
both channels receive exactly the same offsets.  What fails (third
conjunct): the claimed `(n, channels, kernel_size)` return shape.  Line
166 concatenates a list of `[hanford, livingston]` Python-list pairs,
which `torch.cat` rejects with `TypeError` (the TODO in the source at
lines 164-165 questions exactly this), so the call returns no batch at
all. -/
theorem C4_background_sampling :
    (∀ (s : DatasetState) (gH gL : ℕ → ℕ) (hs ls : List ℕ),
       s.batch_size ≤ s.hanford_background.length - s.kernel_size →
       s.batch_size ≤ s.livingston_background.length - s.kernel_size →
       backgroundStarts s true gH gL = .ok (hs, ls) →
       hs.Nodup ∧ ls.Nodup ∧
       hs.length = s.batch_size ∧ ls.length = s.batch_size ∧
       (∀ x ∈ hs, x < s.hanford_background.length - s.kernel_size) ∧
       (∀ x ∈ ls, x < s.livingston_background.length - s.kernel_size)) ∧
    (∀ (s : DatasetState) (gH gL : ℕ → ℕ) (hs ls : List ℕ),
       backgroundStarts s false gH gL = .ok (hs, ls) → hs = ls) ∧
    sample_from_background c4State true zeroSeed zeroSeed = .error .typeError := by
  refine ⟨?_, ?_, rfl⟩
  · intro s gH gL hs ls h1 h2 heq
    have e1 := npChoiceNoReplace_ok (s.hanford_background.length - s.kernel_size)
      s.batch_size gH h1
    have e2 := npChoiceNoReplace_ok (s.livingston_background.length - s.kernel_size)
      s.batch_size gL h2
    simp [backgroundStarts, e1, e2, Bind.bind, Except.bind] at heq
    obtain ⟨hh, hl⟩ := heq
    subst hh
    subst hl
    exact ⟨npChoiceList_nodup _ _ _, npChoiceList_nodup _ _ _,
      npChoiceList_length _ _ _ h1, npChoiceList_length _ _ _ h2,
      npChoiceList_mem _ _ _, npChoiceList_mem _ _ _⟩
  · intro s gH gL hs ls heq
    cases hC : npChoiceNoReplace (s.hanford_background.length - s.kernel_size)
        s.batch_size gH with
    | error e => simp [backgroundStarts, hC, Bind.bind, Except.bind] at heq
    | ok l =>
      simp [backgroundStarts, hC, Bind.bind, Except.bind] at heq
      obtain ⟨hh, hl⟩ := heq
      rw [← hh, ← hl]

/-- Witness for `C4_background_sampling` on `c4State`: the draw under
the constant seed stream is `([0, 1], [0, 1])`. -/
theorem C4_background_sampling_witness :
    ([0, 1] : List ℕ).Nodup ∧ ([0, 1] : List ℕ).Nodup ∧
    ([0, 1] : List ℕ).length = c4State.batch_size ∧
    ([0, 1] : List ℕ).length = c4State.batch_size ∧
    (∀ x ∈ ([0, 1] : List ℕ),
       x < c4State.hanford_background.length - c4State.kernel_size) ∧
    (∀ x ∈ ([0, 1] : List ℕ),
       x < c4State.livingston_background.length - c4State.kernel_size) :=
  C4_background_sampling.1 c4State zeroSeed zeroSeed [0, 1] [0, 1]
    (by decide) (by decide) rfl

/-- A glitch pool of 3 stored segments of length 6 (longer than the
kernel, so crops are drawn). -/
def c8LongPool : List (List ℚ) :=
  [[0, 0, 0, 0, 0, 0], [1, 1, 1, 1, 1, 1], [2, 2, 2, 2, 2, 2]]

/-- A glitch pool of 3 stored segments of length exactly 4 — equal to
the kernel size used below. -/
def c8EqPool : List (List ℚ) :=
  [[0, 0, 0, 0], [1, 1, 1, 1], [2, 2, 2, 2]]

/-- A waveform pool of 3 stored two-channel examples of length 6
(longer than the kernel, so crops are drawn). -/
def c8WfPool : List (List (List ℚ)) :=
  [[[0, 0, 0, 0, 0, 0], [1, 1, 1, 1, 1, 1]],
   [[2, 2, 2, 2, 2, 2], [3, 3, 3, 3, 3, 3]],
   [[4, 4, 4, 4, 4, 4], [5, 5, 5, 5, 5, 5]]]

/-- A waveform pool of 3 stored two-channel examples of length exactly
4 — equal to the kernel size used below. -/
def c8EqWfPool : List (List (List ℚ)) :=
  [[[0, 0, 0, 0], [1, 1, 1, 1]],
   [[2, 2, 2, 2], [3, 3, 3, 3]],
   [[4, 4, 4, 4], [5, 5, 5, 5]]]

/-- Claim C8, counterexample to "fails if and only if N > P" and to "a
segment whose stored length equals kernel_size is returned whole", for
BOTH auxiliary pool ranks served by `sample_from_array`.  With
`kernel_size = 4`, a pool of `P = 3` entries of stored length exactly 4
and `N = 2 ≤ P`, the code still fails — line 130 always draws
`np.random.randint(shape[-1] - kernel_size)`, and `randint(0)` raises
`ValueError` instead of returning the segment whole — both on a 2-D
glitch pool and on a 3-D waveform pool. -/
theorem C8_cex_exact_length_pool :
    (2 ≤ c8EqPool.length) ∧
    sample_from_array2 4 c8EqPool 2 zeroSeed zeroSeed = .error .valueError ∧
    (2 ≤ c8EqWfPool.length) ∧
    sample_from_array3 4 c8EqWfPool 2 zeroSeed zeroSeed = .error .valueError := by
  refine ⟨by decide, rfl, by decide, rfl⟩

/-- The crop loop of `sample_from_array` succeeds, and produces
kernel-sized crops at in-range starts, when every pool row is strictly
longer than the kernel. -/
theorem sampleRows2_spec (ks L : ℕ) (pool : List (List ℚ)) (g2 : ℕ → ℕ)
    (hL : ∀ row ∈ pool, row.length = L) (hks : ks < L) :
    ∀ (idx : List ℕ) (k : ℕ), (∀ i ∈ idx, i < pool.length) →
      ∃ samples, sampleRows2 ks pool L g2 k idx = .ok samples ∧
        List.Forall₂ (fun i sgm => ∃ st, st < L - ks ∧
          sgm = (((pool.getD i []).drop st).take ks)) idx samples ∧
        samples.length = idx.length ∧
        (∀ sgm ∈ samples, sgm.length = ks) := by
  intro idx
  induction idx with
  | nil =>
    intro k _
    exact ⟨[], rfl, List.Forall₂.nil, rfl, by simp⟩
  | cons i rest ih =>
    intro k h
    have hi : i < pool.length := h i (List.mem_cons_self i rest)
    have hrest : ∀ j ∈ rest, j < pool.length := fun j hj => h j (List.mem_cons_of_mem _ hj)
    obtain ⟨tail, htail, hf2, hlenT, hmemT⟩ := ih (k + 1) hrest
    have hLks : ¬ (L - ks = 0) := by omega
    have hst : g2 k % (L - ks) < L - ks :=
      Nat.mod_lt _ (Nat.pos_of_ne_zero hLks)
    have hrow : (pool.getD i []).length = L := by
      have hmem : pool.getD i [] ∈ pool := by
        rw [List.getD_eq_getElem _ _ hi]
        exact List.getElem_mem hi
      exact hL _ hmem
    have hslice :
        ((((pool.getD i []).drop (g2 k % (L - ks)))).take ks).length = ks := by
      rw [List.length_take, List.length_drop, hrow]
      omega
    refine ⟨(((pool.getD i []).drop (g2 k % (L - ks))).take ks) :: tail, ?_, ?_, ?_, ?_⟩
    · simp [sampleRows2, npRandint, hLks, htail, Bind.bind, Except.bind]
    · exact List.Forall₂.cons ⟨g2 k % (L - ks), hst, rfl⟩ hf2
    · simp [hlenT]
    · intro sgm hsgm
      rcases List.mem_cons.mp hsgm with hs1 | hs2
      · rw [hs1]
        exact hslice
      · exact hmemT _ hs2

/-- The crop loop of `sample_from_array` for the 3-D waveform pool
(`array[i, :, start:stop]`, line 135): it succeeds, preserving the
channel count and cropping every channel to kernel size at an in-range
start, when every stored channel is strictly longer than the kernel. -/
theorem sampleRows3_spec (ks L C : ℕ) (pool : List (List (List ℚ))) (g2 : ℕ → ℕ)
    (hL : ∀ ex ∈ pool, ∀ ch ∈ ex, ch.length = L)
    (hC : ∀ ex ∈ pool, ex.length = C) (hks : ks < L) :
    ∀ (idx : List ℕ) (k : ℕ), (∀ i ∈ idx, i < pool.length) →
      ∃ samples, sampleRows3 ks pool L g2 k idx = .ok samples ∧
        List.Forall₂ (fun i ex => ∃ st, st < L - ks ∧
          ex = (pool.getD i []).map (fun ch => (ch.drop st).take ks)) idx samples ∧
        samples.length = idx.length ∧
        (∀ ex ∈ samples, ex.length = C ∧ ∀ ch ∈ ex, ch.length = ks) := by
  intro idx
  induction idx with
  | nil =>
    intro k _
    exact ⟨[], rfl, List.Forall₂.nil, rfl, by simp⟩
  | cons i rest ih =>
    intro k h
    have hi : i < pool.length := h i (List.mem_cons_self i rest)
    have hrest : ∀ j ∈ rest, j < pool.length := fun j hj => h j (List.mem_cons_of_mem _ hj)
    obtain ⟨tail, htail, hf2, hlenT, hmemT⟩ := ih (k + 1) hrest
    have hLks : ¬ (L - ks = 0) := by omega
    have hst : g2 k % (L - ks) < L - ks :=
      Nat.mod_lt _ (Nat.pos_of_ne_zero hLks)
    have hmemRow : pool.getD i [] ∈ pool := by
      rw [List.getD_eq_getElem _ _ hi]
      exact List.getElem_mem hi
    refine ⟨((pool.getD i []).map
        (fun ch => (ch.drop (g2 k % (L - ks))).take ks)) :: tail, ?_, ?_, ?_, ?_⟩
    · simp [sampleRows3, npRandint, hLks, htail, Bind.bind, Except.bind]
    · exact List.Forall₂.cons ⟨g2 k % (L - ks), hst, rfl⟩ hf2
    · simp [hlenT]
    · intro ex hex
      rcases List.mem_cons.mp hex with he1 | he2
      · rw [he1]
        constructor
        · rw [List.length_map]
          exact hC _ hmemRow
        · intro ch hch
          obtain ⟨ch0, hch0, rfl⟩ := List.mem_map.mp hch
          have hc0 : ch0.length = L := hL _ hmemRow _ hch0
          rw [List.length_take, List.length_drop, hc0]
          omega
      · exact hmemT _ he2

/-- Claim C8, amended, covering both auxiliary pool ranks served by
`sample_from_array` (2-D glitch pools and 3-D waveform pools,
`array[i, :, start:stop]`).  `sample(N)` fails with `ValueError`
whenever `N > P` — on either rank, including the concrete `sample(5)`
of the claim from a pool of 3; when `N ≤ P` AND every stored segment is
strictly longer than `kernel_size`, it succeeds and returns `N`
segments drawn at pairwise distinct in-range pool indices, each one a
kernel-sized crop at an independently drawn start in
`[0, length - kernel_size)` (applied to every channel of a 3-D
example, preserving its channel count).  (A pool whose stored length
equals `kernel_size` instead raises `ValueError`; see the
counterexample.) -/
theorem C8_sample_from_array_spec :
    (∀ (ks : ℕ) (pool : List (List ℚ)) (N : ℕ) (g1 g2 : ℕ → ℕ) (L : ℕ),
       (∀ row ∈ pool, row.length = L) → ks < L → N ≤ pool.length →
       ∃ idx samples,
         npChoiceNoReplace pool.length N g1 = .ok idx ∧
         sample_from_array2 ks pool N g1 g2 = .ok samples ∧
         idx.Nodup ∧ idx.length = N ∧ (∀ i ∈ idx, i < pool.length) ∧
         List.Forall₂ (fun i sgm => ∃ st, st < L - ks ∧
           sgm = (((pool.getD i []).drop st).take ks)) idx samples ∧
         samples.length = N ∧ (∀ sgm ∈ samples, sgm.length = ks)) ∧
    (∀ (ks : ℕ) (pool : List (List (List ℚ))) (N : ℕ) (g1 g2 : ℕ → ℕ) (L C : ℕ),
       (∀ ex ∈ pool, ∀ ch ∈ ex, ch.length = L) →
       (∀ ex ∈ pool, ex.length = C) → 0 < C → ks < L → N ≤ pool.length →
       ∃ idx samples,
         npChoiceNoReplace pool.length N g1 = .ok idx ∧
         sample_from_array3 ks pool N g1 g2 = .ok samples ∧
         idx.Nodup ∧ idx.length = N ∧ (∀ i ∈ idx, i < pool.length) ∧
         List.Forall₂ (fun i ex => ∃ st, st < L - ks ∧
           ex = (pool.getD i []).map (fun ch => (ch.drop st).take ks)) idx samples ∧
         samples.length = N ∧
         (∀ ex ∈ samples, ex.length = C ∧ ∀ ch ∈ ex, ch.length = ks)) ∧
    (∀ (ks : ℕ) (pool : List (List ℚ)) (N : ℕ) (g1 g2 : ℕ → ℕ),
       pool.length < N → sample_from_array2 ks pool N g1 g2 = .error .valueError) ∧
    (∀ (ks : ℕ) (pool : List (List (List ℚ))) (N : ℕ) (g1 g2 : ℕ → ℕ),
       pool.length < N → sample_from_array3 ks pool N g1 g2 = .error .valueError) ∧
    (∀ (g1 g2 : ℕ → ℕ), sample_from_array2 4 c8LongPool 5 g1 g2 = .error .valueError) := by
  refine ⟨?_, ?_, ?_, ?_, ?_⟩
  · intro ks pool N g1 g2 L hL hks hN
    have hchoice := npChoiceNoReplace_ok pool.length N g1 hN
    have hmem := npChoiceList_mem pool.length N g1
    obtain ⟨samples, hrows, hf2, hlenS, hmemS⟩ :=
      sampleRows2_spec ks L pool g2 hL hks (npChoiceList pool.length N g1) 0 hmem
    have hshape : shapeLast2 pool = L ∨ pool = [] := by
      cases pool with
      | nil => exact Or.inr rfl
      | cons r rest =>
        exact Or.inl (by simp [shapeLast2, hL r (List.mem_cons_self r rest)])
    rcases hshape with hshape | hnil
    · refine ⟨npChoiceList pool.length N g1, samples, hchoice, ?_,
        npChoiceList_nodup _ _ _, npChoiceList_length _ _ _ hN, hmem, hf2,
        by rw [hlenS, npChoiceList_length _ _ _ hN], hmemS⟩
      simp [sample_from_array2, hchoice, hshape, hrows, Bind.bind, Except.bind]
    · subst hnil
      have hN0 : N = 0 := Nat.le_zero.mp (by simpa using hN)
      subst hN0
      refine ⟨[], [], ?_, ?_, by simp, by simp, by simp, List.Forall₂.nil,
        by simp, by simp⟩
      · simp [npChoiceNoReplace, npChoiceList]
      · simp [sample_from_array2, npChoiceNoReplace, npChoiceList, sampleRows2,
              Bind.bind, Except.bind]
  · intro ks pool N g1 g2 L C hL hC hCpos hks hN
    have hchoice := npChoiceNoReplace_ok pool.length N g1 hN
    have hmem := npChoiceList_mem pool.length N g1
    obtain ⟨samples, hrows, hf2, hlenS, hmemS⟩ :=
      sampleRows3_spec ks L C pool g2 hL hC hks (npChoiceList pool.length N g1) 0 hmem
    have hshape : shapeLast3 pool = L ∨ pool = [] := by
      cases pool with
      | nil => exact Or.inr rfl
      | cons e rest =>
        refine Or.inl ?_
        have heC : e.length = C := hC e (List.mem_cons_self e rest)
        cases e with
        | nil =>
          have hC0 : C = 0 := by simpa using heC.symm
          exact absurd hCpos (by omega)
        | cons ch chs =>
          have hchL : ch.length = L :=
            hL _ (List.mem_cons_self _ rest) ch (List.mem_cons_self ch chs)
          simp [shapeLast3, hchL]
    rcases hshape with hshape | hnil
    · refine ⟨npChoiceList pool.length N g1, samples, hchoice, ?_,
        npChoiceList_nodup _ _ _, npChoiceList_length _ _ _ hN, hmem, hf2,
        by rw [hlenS, npChoiceList_length _ _ _ hN], hmemS⟩
      simp [sample_from_array3, hchoice, hshape, hrows, Bind.bind, Except.bind]
    · subst hnil
      have hN0 : N = 0 := Nat.le_zero.mp (by simpa using hN)
      subst hN0
      refine ⟨[], [], ?_, ?_, by simp, by simp, by simp, List.Forall₂.nil,
        by simp, by simp⟩
      · simp [npChoiceNoReplace, npChoiceList]
      · simp [sample_from_array3, npChoiceNoReplace, npChoiceList, sampleRows3,
              Bind.bind, Except.bind]
  · intro ks pool N g1 g2 hlt
    have hnle : ¬ (N ≤ pool.length) := Nat.not_le.mpr hlt
    simp [sample_from_array2, npChoiceNoReplace, hnle, Bind.bind, Except.bind]
  · intro ks pool N g1 g2 hlt
    have hnle : ¬ (N ≤ pool.length) := Nat.not_le.mpr hlt
    simp [sample_from_array3, npChoiceNoReplace, hnle, Bind.bind, Except.bind]
  · intro g1 g2
    have hnle : ¬ (5 ≤ c8LongPool.length) := by decide
    simp [sample_from_array2, npChoiceNoReplace, hnle, Bind.bind, Except.bind]

/-- Witness for `C8_sample_from_array_spec`: two crops from the 2-D
length-6 glitch pool, and two crops from the 3-D two-channel length-6
waveform pool, both with kernel size 4. -/
theorem C8_sample_from_array_spec_witness :
    (∃ idx samples,
      npChoiceNoReplace c8LongPool.length 2 zeroSeed = .ok idx ∧
      sample_from_array2 4 c8LongPool 2 zeroSeed zeroSeed = .ok samples ∧
      idx.Nodup ∧ idx.length = 2 ∧ (∀ i ∈ idx, i < c8LongPool.length) ∧
      List.Forall₂ (fun i sgm => ∃ st, st < 6 - 4 ∧
        sgm = (((c8LongPool.getD i []).drop st).take 4)) idx samples ∧
      samples.length = 2 ∧ (∀ sgm ∈ samples, sgm.length = 4)) ∧
    (∃ idx samples,
      npChoiceNoReplace c8WfPool.length 2 zeroSeed = .ok idx ∧
      sample_from_array3 4 c8WfPool 2 zeroSeed zeroSeed = .ok samples ∧
      idx.Nodup ∧ idx.length = 2 ∧ (∀ i ∈ idx, i < c8WfPool.length) ∧
      List.Forall₂ (fun i ex => ∃ st, st < 6 - 4 ∧
        ex = (c8WfPool.getD i []).map (fun ch => (ch.drop st).take 4)) idx samples ∧
      samples.length = 2 ∧
      (∀ ex ∈ samples, ex.length = 2 ∧ ∀ ch ∈ ex, ch.length = 4)) :=
  ⟨C8_sample_from_array_spec.1 4 c8LongPool 2 zeroSeed zeroSeed 6
    (by decide) (by decide) (by decide),
   C8_sample_from_array_spec.2.1 4 c8WfPool 2 zeroSeed zeroSeed 6 2
    (by decide) (by decide) (by decide) (by decide) (by decide)⟩

/-- The external estimate / design stand-ins used to evaluate `fit`
concretely: the ASD estimate passes the background through, the FIR
design returns an all-zero filter of the requested tap count. -/
def asdStub : AsdFn := fun _ _ _ bg => bg

def firStub : FirFn := fun _ n => List.replicate n 0

/-- A whitening transform state as `__init__` leaves it (the filter
parameter is the 1-D `np.zeros(num_ifos, dtype)` of line 27, so
`shape[0] = num_ifos`). -/
def c9State : WhitenState where
  num_ifos := 2
  sample_rate := 2
  kernel_length := 1
  fftlength := 2
  time_domain_filter := .one [0, 0]
  window := [3, 3, 3, 3]

/-- The state `fit` produces from `c9State` on two one-sample
backgrounds under the stand-in routines. -/
def c9Fitted : WhitenState where
  num_ifos := 2
  sample_rate := 2
  kernel_length := 1
  fftlength := 2
  time_domain_filter := .two [List.replicate 4 0, List.replicate 4 0]
  window := [3, 3, 3, 3]

/-- Claim C9.  Every successful `fit` call modifies only the
`time_domain_filter` parameter: `num_ifos`, `sample_rate`,
`kernel_length`, `fftlength` and the window tensor are unchanged, and
the new filter is a 2-D array of shape
`(num_ifos, int(fftlength * sample_rate))`.  Stated for every FIR
design routine honouring its documented output length (`ntaps` taps)
and every state whose filter satisfies the constructor invariant
`shape[0] = num_ifos`. -/
theorem C9_fit_frame :
    ∀ (asdF : AsdFn) (firF : FirFn),
      (∀ t n, (firF t n).length = n) →
      ∀ (s sOut : WhitenState) (bgs : List (List ℚ)),
        npShape0 s.time_domain_filter = s.num_ifos →
        whitenFit asdF firF s bgs = .ok sOut →
        sOut.num_ifos = s.num_ifos ∧ sOut.sample_rate = s.sample_rate ∧
        sOut.kernel_length = s.kernel_length ∧ sOut.fftlength = s.fftlength ∧
        sOut.window = s.window ∧
        npHasShape2 sOut.time_domain_filter s.num_ifos
          (pyInt (s.fftlength * s.sample_rate)) = true := by
  intro asdF firF hfir s sOut bgs hinv hok
  by_cases hlen : bgs.length ≠ npShape0 s.time_domain_filter
  · simp [whitenFit, hlen] at hok
  · push_neg at hlen
    simp [whitenFit, hlen] at hok
    subst hok
    have h1 : bgs.length = s.num_ifos := hlen.trans hinv
    refine ⟨rfl, rfl, rfl, rfl, rfl, ?_⟩
    simp [npHasShape2, h1, List.all_eq_true]
    intro row hrow
    simp [hfir]

/-- Witness for `C9_fit_frame` on `c9State` with the stand-in
routines. -/
theorem C9_fit_frame_witness :
    c9Fitted.num_ifos = c9State.num_ifos ∧
    c9Fitted.sample_rate = c9State.sample_rate ∧
    c9Fitted.kernel_length = c9State.kernel_length ∧
    c9Fitted.fftlength = c9State.fftlength ∧
    c9Fitted.window = c9State.window ∧
    npHasShape2 c9Fitted.time_domain_filter c9State.num_ifos
      (pyInt (c9State.fftlength * c9State.sample_rate)) = true := by
  have hfir : ∀ (t : List ℚ) (n : ℕ), (firStub t n).length = n := by
    intro t n
    simp [firStub]
  have hnt : pyInt ((2 : ℚ) * 2) = 4 := by
    norm_num [pyInt]
    try decide
  have hok : whitenFit asdStub firStub c9State [[1], [2]] = .ok c9Fitted := by
    simp [whitenFit, npShape0, c9State, c9Fitted, asdStub, firStub, hnt]
  exact C9_fit_frame asdStub firStub hfir c9State c9Fitted [[1], [2]] (by decide) hok
